import Mathlib

/-!
Shallow embedding of the OCR mock API (Go, package main).

The program has three components the specification describes:

* the Item Processor, the Go function processOCR: it races a simulated
  delay against the request context and either synthesizes a text result
  (status 200) or reports cancellation (a 408-shaped result paired with a
  non-nil error);
* the Single-Request Orchestrator, the POST /ocr handler body: a
  three-way select between the processor result channel, the processor
  error channel and the request context;
* the Batch Orchestrator, the Go function processBatchOCR: one worker
  goroutine per item, a buffered result channel, and a collector loop of
  exactly N iterations where each iteration is a select between draining
  one tagged completion and observing context cancellation (the latter
  running a backfill pass over slots j >= i whose key is still empty; the
  break statement inside the select leaves only the select, so the loop
  keeps iterating afterwards).

Nondeterminism (random draws, the races, the channel arrival order and
the per-iteration select choice) is made explicit: random draws become an
OCRRand record, the per-worker race outcome becomes a Bool, the channel
content becomes the send order of worker indices, and each collector
iteration consumes one Step (drain or cancel) from a schedule list.
Every function below mirrors the corresponding Go code line by line.
-/

/-- Mirrors Go struct OCRRequest: a client key and a resource URL. -/
structure OCRRequest where
  key : String
  url : String
deriving DecidableEq, Repr, Inhabited

/-- Mirrors Go struct APIResponse. The Go zero value (empty strings,
status 0) is the Inhabited default, matching make([]APIResponse, n). -/
structure APIResponse where
  key : String := ""
  statusCode : Nat := 0
  body : String := ""
  err : String := ""
deriving DecidableEq, Repr, Inhabited

/-- The ten fixed document-type phrases of processOCR (randomTexts). -/
def randomTexts : List String :=
  [ "Documento de identificación",
    "Pasaporte República Argentina",
    "Licencia de conducir",
    "Factura comercial No. 12345",
    "Certificado de nacimiento",
    "Contrato de trabajo",
    "Recibo de pago mensual",
    "Diploma universitario",
    "Tarjeta de crédito VISA",
    "Boleta de servicios públicos" ]

/-- The seven field-name tokens of processOCR (additionalWords). -/
def additionalWords : List String :=
  ["validez", "expedición", "número", "fecha", "código", "serie", "emisión"]

/-- The random draws consumed by the text-synthesis part of processOCR.
Each field records the raw value returned by the corresponding generator
call, so textIdx is the result of rand.Intn(10), extend the truth value
of rand.Float32() < 0.7, wordIdx the result of rand.Intn(7) and numDraw
the result of rand.Intn(9999). Taking the values modulo the generator
bound keeps the functions total without changing any in-range value. -/
structure OCRRand where
  textIdx : Nat
  extend : Bool
  wordIdx : Nat
  numDraw : Nat
deriving DecidableEq, Repr, Inhabited

/-- Text synthesis of processOCR (the code after the select): pick one of
the ten phrases; with the 0.7-probability branch taken, append one of the
seven words and the number rand.Intn(9999)+1000, separated by spaces. -/
def genText (r : OCRRand) : String :=
  let selectedText := randomTexts.getD (r.textIdx % randomTexts.length) ""
  if r.extend then
    selectedText ++ " " ++ additionalWords.getD (r.wordIdx % additionalWords.length) ""
      ++ " " ++ toString (r.numDraw % 9999 + 1000)
  else
    selectedText

/-- Mirrors Go processOCR(ctx, key, url). ctxDone records which select
case fires: true means ctx.Done() wins the race against the simulated
delay. ctxErrMsg is the text of ctx.Err() (context canceled or context
deadline exceeded). The second component models the returned error:
some msg exactly when the Go function returns a non-nil error. -/
def processOCR (ctxDone : Bool) (ctxErrMsg key _url : String) (r : OCRRand) :
    APIResponse × Option String :=
  if ctxDone then
    (⟨key, 408, "", "Procesamiento cancelado por timeout"⟩, some ctxErrMsg)
  else
    (⟨key, 200, genText r, ""⟩, none)

/-- The three ways the select in the POST /ocr handler can resolve:
the result channel delivers a processor success, the error channel
delivers a processor cancellation, or the request context is observed
directly. -/
inductive SingleOutcome where
  | completed
  | procCancelled
  | ctxDone
deriving DecidableEq, Repr

/-- Mirrors the select of the POST /ocr handler (after validation): the
response written for each way the three-way race can resolve. A result
arrives on resultChan only when processOCR returned a nil error, i.e.
its own race was won by the delay, so the completed case carries the
processOCR success result verbatim. -/
def handleOCR (outcome : SingleOutcome) (ctxErrMsg key url : String) (r : OCRRand) :
    APIResponse :=
  match outcome with
  | .completed => (processOCR false ctxErrMsg key url r).1
  | .procCancelled => ⟨key, 408, "", "Timeout durante procesamiento"⟩
  | .ctxDone => ⟨key, 499, "", "Cliente canceló la request"⟩

/-- The body of one worker goroutine of processBatchOCR (lines 95-105):
call processOCR; when it reports a non-nil error, replace the response by
a 500 response carrying the error text; the message sent on resultChan is
tagged with the worker index by the caller. cancelled records whether
this worker's own processOCR race was won by ctx.Done(). -/
def workerMsg (cancelled : Bool) (ctxErrMsg : String) (req : OCRRequest) (r : OCRRand) :
    APIResponse :=
  let res := processOCR cancelled ctxErrMsg req.key req.url r
  match res.2 with
  | some e => ⟨req.key, 500, "", e⟩
  | none => res.1

/-- The response the cancellation backfill writes into an empty slot. -/
def batchTimeoutResp (key : String) : APIResponse :=
  ⟨key, 408, "", "Batch processing cancelled or timed out"⟩

/-- The backfill pass of processBatchOCR (lines 116-125): for j from the
current iteration counter start to the end, fill the slot with the 408
response when its key is still empty, leave it alone otherwise. -/
def backfillFrom (items : List OCRRequest) (start : Nat) (results : List APIResponse) :
    List APIResponse :=
  (List.range results.length).map fun j =>
    if start ≤ j ∧ (results.getD j default).key = "" then
      batchTimeoutResp (items.getD j default).key
    else
      results.getD j default

/-- One collector iteration's select choice: drain one completion from
resultChan, or observe ctx.Done(). -/
inductive Step where
  | drain
  | cancel
deriving DecidableEq, Repr

/-- The collector loop of processBatchOCR (lines 110-128). i is the Go
loop counter, msgs the queue of tagged completions still in resultChan in
arrival order, steps the per-iteration select choices. A drain writes the
message into its tagged slot; a cancel runs the backfill pass from i and,
because break only leaves the select, the loop then continues. The loop
runs one iteration per schedule step (a faithful schedule has exactly
len(items) steps; a drain step is only realizable while completions
remain, and the function returns the slots unchanged otherwise). -/
def collect (items : List OCRRequest) :
    Nat → List (Nat × APIResponse) → List Step → List APIResponse → List APIResponse
  | _, _, [], results => results
  | i, msgs, Step.drain :: rest, results =>
    match msgs with
    | [] => results
    | (idx, resp) :: ms => collect items (i + 1) ms rest (results.set idx resp)
  | i, msgs, Step.cancel :: rest, results =>
    collect items (i + 1) msgs rest (backfillFrom items i results)

/-- Mirrors Go processBatchOCR(ctx, items), with the nondeterminism
explicit: cancelled gives each worker's race outcome, rands each worker's
draws, sendOrder the order in which the worker indices deliver their
tagged messages into resultChan, and steps the collector's select
choices. The result slice starts as len(items) zero values. -/
def processBatchOCR (ctxErrMsg : String) (items : List OCRRequest)
    (cancelled : List Bool) (rands : List OCRRand)
    (sendOrder : List Nat) (steps : List Step) : List APIResponse :=
  let msgs := sendOrder.map fun i =>
    (i, workerMsg (cancelled.getD i false) ctxErrMsg (items.getD i default) (rands.getD i default))
  collect items 0 msgs steps (List.replicate items.length default)

/-! ### Helper lemmas -/

/-- getD of a concrete-length list on an in-range index is a member. -/
lemma getD_mem_of_lt {α : Type} (l : List α) (n : Nat) (d : α) (h : n < l.length) :
    l.getD n d ∈ l := by
  rw [List.getD_eq_getElem l d h]
  exact List.getElem_mem h

/-- getD after set at a different index is unchanged. -/
lemma getD_set_ne {α : Type} (l : List α) (idx j : Nat) (b d : α) (h : j ≠ idx) :
    (l.set idx b).getD j d = l.getD j d := by
  by_cases hj : j < l.length
  · rw [List.getD_eq_getElem _ _ (by simpa using hj), List.getD_eq_getElem _ _ hj,
      List.getElem_set_ne (by omega)]
  · rw [List.getD_eq_default _ _ (by simpa using Nat.le_of_not_lt hj),
      List.getD_eq_default _ _ (Nat.le_of_not_lt hj)]

/-- getD of a map over List.range, in range. -/
lemma getD_map_range {α : Type} (n j : Nat) (f : Nat → α) (d : α) (h : j < n) :
    ((List.range n).map f).getD j d = f j := by
  have hl : j < ((List.range n).map f).length := by simpa using h
  rw [List.getD_eq_getElem _ _ hl, List.getElem_map, List.getElem_range]

/-- The backfill pass keeps the slot count. -/
lemma backfillFrom_length (items : List OCRRequest) (start : Nat)
    (results : List APIResponse) :
    (backfillFrom items start results).length = results.length := by
  simp [backfillFrom]

/-- The collector never changes the number of slots. -/
lemma collect_length (items : List OCRRequest) :
    ∀ (steps : List Step) (i : Nat) (msgs : List (Nat × APIResponse))
      (results : List APIResponse),
      (collect items i msgs steps results).length = results.length := by
  intro steps
  induction steps with
  | nil => intro i msgs results; rfl
  | cons s rest ih =>
    intro i msgs results
    cases s with
    | drain =>
      cases msgs with
      | nil => rfl
      | cons m ms =>
        rw [collect]
        rw [ih]
        exact List.length_set results m.1 m.2
    | cancel =>
      rw [collect, ih, backfillFrom_length]

/-- The result-shape invariant of the spec (P3 and P4): text and error
are never both non-empty; status 200 implies empty error; status 408,
499 or 500 implies empty text. -/
def coherent (r : APIResponse) : Prop :=
  (¬ (r.body ≠ "" ∧ r.err ≠ "")) ∧
  (r.statusCode = 200 → r.err = "") ∧
  ((r.statusCode = 408 ∨ r.statusCode = 499 ∨ r.statusCode = 500) → r.body = "")

instance (r : APIResponse) : Decidable (coherent r) := by
  unfold coherent
  infer_instance

/-- Every message a batch worker sends is coherent. -/
lemma coherent_workerMsg (cancelled : Bool) (ctxErrMsg : String) (req : OCRRequest)
    (r : OCRRand) : coherent (workerMsg cancelled ctxErrMsg req r) := by
  cases cancelled <;>
    simp [coherent, workerMsg, processOCR]

/-- The backfill response is coherent. -/
lemma coherent_batchTimeoutResp (key : String) : coherent (batchTimeoutResp key) := by
  simp [coherent, batchTimeoutResp]

/-- The backfill pass preserves coherence of every slot. -/
lemma coherent_backfillFrom (items : List OCRRequest) (start : Nat)
    (results : List APIResponse) (hres : ∀ x ∈ results, coherent x) :
    ∀ x ∈ backfillFrom items start results, coherent x := by
  intro x hx
  rw [backfillFrom, List.mem_map] at hx
  obtain ⟨j, hj, hfx⟩ := hx
  rw [List.mem_range] at hj
  by_cases hcond : start ≤ j ∧ (results.getD j default).key = ""
  · rw [if_pos hcond] at hfx
    exact hfx ▸ coherent_batchTimeoutResp _
  · rw [if_neg hcond] at hfx
    exact hfx ▸ hres _ (getD_mem_of_lt results j default hj)

/-- The collector preserves coherence of every slot, provided every
pending message is coherent. -/
lemma coherent_collect (items : List OCRRequest) :
    ∀ (steps : List Step) (i : Nat) (msgs : List (Nat × APIResponse))
      (results : List APIResponse),
      (∀ p ∈ msgs, coherent (Prod.snd p)) → (∀ x ∈ results, coherent x) →
      ∀ x ∈ collect items i msgs steps results, coherent x := by
  intro steps
  induction steps with
  | nil => intro i msgs results _ hres; exact hres
  | cons s rest ih =>
    intro i msgs results hmsgs hres
    cases s with
    | drain =>
      cases msgs with
      | nil => exact hres
      | cons m ms =>
        rw [collect]
        refine ih (i + 1) ms (results.set m.1 m.2) (fun p hp => hmsgs p (List.mem_cons_of_mem m hp)) ?_
        intro x hx
        rcases List.mem_or_eq_of_mem_set hx with hmem | heq
        · exact hres x hmem
        · exact heq ▸ hmsgs m (List.mem_cons_self m ms)
    | cancel =>
      rw [collect]
      exact ih (i + 1) msgs _ hmsgs (coherent_backfillFrom items i results hres)

/-! ### Claim theorems -/

/-- Claim C4: the cancellation backfill pass of processBatchOCR never
overwrites a slot already filled by a completed item's result: any slot
whose key is non-empty (which is what the code's guard tests, and what
every worker-written slot satisfies once the boundary has validated the
item keys as non-empty) is returned unchanged by the backfill pass. -/
theorem backfillFrom_preserves_filled_slots
    (items : List OCRRequest) (start : Nat) (results : List APIResponse) (j : Nat)
    (h : (results.getD j default).key ≠ "") :
    (backfillFrom items start results).getD j default = results.getD j default := by
  by_cases hj : j < results.length
  · rw [backfillFrom, getD_map_range _ _ _ _ hj, if_neg]
    intro hcond
    exact h hcond.2
  · exact absurd (congrArg APIResponse.key
      (List.getD_eq_default results default (Nat.le_of_not_lt hj))) h

theorem backfillFrom_preserves_filled_slots_witness :
    (backfillFrom [⟨"a", "u"⟩] 0 [⟨"a", 200, "Contrato de trabajo", ""⟩]).getD 0 default
      = ⟨"a", 200, "Contrato de trabajo", ""⟩ :=
  (backfillFrom_preserves_filled_slots [⟨"a", "u"⟩] 0
    [⟨"a", 200, "Contrato de trabajo", ""⟩] 0 (by decide)).trans rfl

/-- Claim C5: every RecognitionResult the service produces — by the Item
Processor (processOCR), the Single-Request Orchestrator (handleOCR) or
the Batch Orchestrator (processBatchOCR), under any interleaving —
satisfies P3 and P4: text and error are not both non-empty, status 200
implies empty error, status 408/499/500 implies empty text. -/
theorem service_results_coherent :
    (∀ (ctxDone : Bool) (ctxErrMsg key url : String) (r : OCRRand),
      coherent (processOCR ctxDone ctxErrMsg key url r).1) ∧
    (∀ (outcome : SingleOutcome) (ctxErrMsg key url : String) (r : OCRRand),
      coherent (handleOCR outcome ctxErrMsg key url r)) ∧
    (∀ (ctxErrMsg : String) (items : List OCRRequest) (cancelled : List Bool)
      (rands : List OCRRand) (sendOrder : List Nat) (steps : List Step)
      (res : APIResponse),
      res ∈ processBatchOCR ctxErrMsg items cancelled rands sendOrder steps →
      coherent res) := by
  refine ⟨?_, ?_, ?_⟩
  · intro ctxDone ctxErrMsg key url r
    cases ctxDone <;> simp [processOCR, coherent]
  · intro outcome ctxErrMsg key url r
    cases outcome <;> simp [handleOCR, processOCR, coherent]
  · intro ctxErrMsg items cancelled rands sendOrder steps res hres
    refine coherent_collect items steps 0 _ _ ?_ ?_ res hres
    · intro p hp
      rw [List.mem_map] at hp
      obtain ⟨i, _, hpi⟩ := hp
      exact hpi ▸ coherent_workerMsg _ _ _ _
    · intro x hx
      rw [List.eq_of_mem_replicate hx]
      decide

theorem service_results_coherent_witness :
    coherent ⟨"a", 408, "", "Batch processing cancelled or timed out"⟩ :=
  service_results_coherent.2.2 "context canceled" [⟨"a", "u"⟩] [true] [default] [0]
    [Step.cancel] _ (by decide)

/-- Claim C6: for every batch input, under every schedule (so in
particular when cancellation fires at any point), the result slice of
processBatchOCR has exactly as many entries as the input has items. -/
theorem processBatchOCR_length
    (ctxErrMsg : String) (items : List OCRRequest) (cancelled : List Bool)
    (rands : List OCRRand) (sendOrder : List Nat) (steps : List Step)
    (h : 1 ≤ items.length) :
    (processBatchOCR ctxErrMsg items cancelled rands sendOrder steps).length
      = items.length := by
  rw [processBatchOCR, collect_length, List.length_replicate]

theorem processBatchOCR_length_witness :
    (processBatchOCR "context canceled" [⟨"a", "u"⟩, ⟨"b", "v"⟩] [false, false]
      [default, default] [0, 1] [Step.drain, Step.drain]).length = 2 :=
  processBatchOCR_length "context canceled" [⟨"a", "u"⟩, ⟨"b", "v"⟩] [false, false]
    [default, default] [0, 1] [Step.drain, Step.drain] (by decide)

/-- Claim C7: the Single-Request Orchestrator resolves every request to
exactly one of three terminal results (it is a total function, so it
never raises): on normal completion it returns the Item Processor's
success result verbatim, which carries status 200; on processor-internal
cancellation it returns 408 with empty text and the timeout message; on
direct observation of the request-level cancellation it returns 499 with
empty text and the client-cancelled message. -/
theorem handleOCR_three_terminal_results
    (outcome : SingleOutcome) (ctxErrMsg key url : String) (r : OCRRand) :
    (outcome = SingleOutcome.completed →
      handleOCR outcome ctxErrMsg key url r = (processOCR false ctxErrMsg key url r).1 ∧
      (handleOCR outcome ctxErrMsg key url r).statusCode = 200) ∧
    (outcome = SingleOutcome.procCancelled →
      handleOCR outcome ctxErrMsg key url r
        = ⟨key, 408, "", "Timeout durante procesamiento"⟩) ∧
    (outcome = SingleOutcome.ctxDone →
      handleOCR outcome ctxErrMsg key url r
        = ⟨key, 499, "", "Cliente canceló la request"⟩) := by
  refine ⟨?_, ?_, ?_⟩ <;> rintro rfl <;> simp [handleOCR, processOCR]

theorem handleOCR_three_terminal_results_witness :
    handleOCR SingleOutcome.ctxDone "context canceled" "k1" "http://x" default
      = ⟨"k1", 499, "", "Cliente canceló la request"⟩ :=
  (handleOCR_three_terminal_results SingleOutcome.ctxDone "context canceled" "k1"
    "http://x" default).2.2 rfl

/-- Claim C8: when a worker's processOCR call returns a non-nil error
(in the embedding: its race is won by the context), the worker turns it
into a result with status 500 and the error's text under the item's own
key, and a drain of that tagged message writes only the item's own slot:
every sibling slot is unchanged by the write. -/
theorem workerMsg_error_isolated (ctxErrMsg : String) (req : OCRRequest) (r : OCRRand) :
    workerMsg true ctxErrMsg req r = ⟨req.key, 500, "", ctxErrMsg⟩ ∧
    (∀ (results : List APIResponse) (idx : Nat) (resp : APIResponse) (j : Nat),
      j ≠ idx → (results.set idx resp).getD j default = results.getD j default) := by
  constructor
  · simp [workerMsg, processOCR]
  · intro results idx resp j hj
    exact getD_set_ne results idx j resp default hj

theorem workerMsg_error_isolated_witness :
    workerMsg true "context canceled" ⟨"a", "u"⟩ default
        = ⟨"a", 500, "", "context canceled"⟩ ∧
      ((([⟨"b", 200, "x", ""⟩, default] : List APIResponse).set 1
        (workerMsg true "context canceled" ⟨"a", "u"⟩ default)).getD 0 default)
        = ⟨"b", 200, "x", ""⟩ :=
  ⟨(workerMsg_error_isolated "context canceled" ⟨"a", "u"⟩ default).1,
    ((workerMsg_error_isolated "context canceled" ⟨"a", "u"⟩ default).2
      [⟨"b", 200, "x", ""⟩, default] 1 _ 0 (by decide)).trans rfl⟩

/-- Claim C10: processOCR always returns a (non-nil) result; it returns
a non-nil error exactly when the cancellation signal wins the race
against the simulated delay, and then the result is exactly the caller's
key with status 408, empty text and the fixed cancellation message; when
the delay wins, the result carries the caller's key with status 200 and
a nil error. -/
theorem processOCR_cancellation_contract
    (ctxDone : Bool) (ctxErrMsg key url : String) (r : OCRRand) :
    ((processOCR ctxDone ctxErrMsg key url r).2 ≠ none ↔ ctxDone = true) ∧
    (ctxDone = true →
      processOCR ctxDone ctxErrMsg key url r
        = (⟨key, 408, "", "Procesamiento cancelado por timeout"⟩, some ctxErrMsg)) ∧
    (ctxDone = false →
      (processOCR ctxDone ctxErrMsg key url r).1.key = key ∧
      (processOCR ctxDone ctxErrMsg key url r).1.statusCode = 200 ∧
      (processOCR ctxDone ctxErrMsg key url r).2 = none) := by
  cases ctxDone <;> simp [processOCR]

theorem processOCR_cancellation_contract_witness :
    processOCR true "context deadline exceeded" "k1" "http://x" default
        = (⟨"k1", 408, "", "Procesamiento cancelado por timeout"⟩,
            some "context deadline exceeded") ∧
      (processOCR false "context canceled" "k1" "http://x" default).1.statusCode = 200 :=
  ⟨(processOCR_cancellation_contract true "context deadline exceeded" "k1" "http://x"
      default).2.1 rfl,
    ((processOCR_cancellation_contract false "context canceled" "k1" "http://x"
      default).2.2 rfl).2.1⟩

/-- Claim C1 is violated by the code: with two items whose keys and urls
are non-empty, in the realizable interleaving where the collector first
drains item 1's completion and then observes cancellation, the backfill
loop starts at j = i = 1 and never revisits slot 0, which was never
drained; the returned slot 0 is the Go zero value, so its key is ""
instead of items[0].key = "a". -/
theorem processBatchOCR_slot_key_lost_on_cancel :
    (processBatchOCR "context canceled" [⟨"a", "u"⟩, ⟨"b", "v"⟩] [true, false]
        [default, default] [1, 0] [Step.drain, Step.cancel]).getD 0 default
      = (default : APIResponse) ∧
    ((processBatchOCR "context canceled" [⟨"a", "u"⟩, ⟨"b", "v"⟩] [true, false]
        [default, default] [1, 0] [Step.drain, Step.cancel]).getD 0 default).key
      ≠ "a" := by
  constructor
  · rfl
  · decide

/-- Claim C2 is violated by the code: when cancellation is observed at
iteration 0 (backfilling both slots with 408), the break statement only
leaves the select, so iteration 1 still drains item 1's completion and
overwrites the backfilled slot 1 with a status-200 result; had the drain
loop terminated at cancellation as claimed, slot 1 would still hold the
backfill response. -/
theorem processBatchOCR_drains_after_cancel :
    ((processBatchOCR "context canceled" [⟨"a", "u"⟩, ⟨"b", "v"⟩] [true, false]
        [default, default] [1, 0] [Step.cancel, Step.drain]).getD 1 default).statusCode
      = 200 ∧
    (processBatchOCR "context canceled" [⟨"a", "u"⟩, ⟨"b", "v"⟩] [true, false]
        [default, default] [1, 0] [Step.cancel, Step.drain]).getD 1 default
      ≠ batchTimeoutResp "b" := by
  constructor
  · rfl
  · decide

/-- Claim C3 is violated by the code: item 0 does not complete normally
before cancellation (its own race is lost to the context and its worker
sends a 500 message), cancellation at iteration 0 backfills its slot
with the required 408 response, but the continuing loop drains the late
500 message at iteration 1 and overwrites the slot: the item ends with
status 500 and the context error text, not 408 with the
batch-cancellation message. -/
theorem processBatchOCR_late_500_overwrites_backfill :
    (processBatchOCR "context canceled" [⟨"a", "u"⟩, ⟨"b", "v"⟩] [true, true]
        [default, default] [0, 1] [Step.cancel, Step.drain]).getD 0 default
      = ⟨"a", 500, "", "context canceled"⟩ ∧
    ((processBatchOCR "context canceled" [⟨"a", "u"⟩, ⟨"b", "v"⟩] [true, true]
        [default, default] [0, 1] [Step.cancel, Step.drain]).getD 0 default).statusCode
      ≠ 408 := by
  constructor
  · rfl
  · decide

/-- Claim C9 is refuted at a concrete draw: with textIdx 0, the 0.7
branch taken, wordIdx 0 and numDraw 9998 (a value rand.Intn(9999) can
return), the synthesized text appends the integer 9998 % 9999 + 1000 =
10998, which exceeds 9999 and is not a 4-digit integer. -/
theorem genText_appends_number_beyond_9999 :
    genText ⟨0, true, 0, 9998⟩ = "Documento de identificación validez 10998" ∧
    ¬ (9998 % 9999 + 1000 ≤ 9999) := by
  constructor
  · rfl
  · decide

/-- Claim C9 amended: when the delay elapses first, the synthesized text
is one of the ten fixed phrases, and when the probability-0.7 branch is
taken it is extended by one word from the seven field-name tokens
followed by the integer rand.Intn(9999) + 1000, which lies in the range
1000–10998 (not 1000–9999), separated by spaces. -/
theorem genText_structure (r : OCRRand) :
    (r.extend = false → genText r ∈ randomTexts) ∧
    (r.extend = true →
      ∃ base word, base ∈ randomTexts ∧ word ∈ additionalWords ∧
        genText r = base ++ " " ++ word ++ " " ++ toString (r.numDraw % 9999 + 1000) ∧
        1000 ≤ r.numDraw % 9999 + 1000 ∧ r.numDraw % 9999 + 1000 ≤ 10998) := by
  constructor
  · intro h
    simp only [genText, h, if_false, Bool.false_eq_true]
    exact getD_mem_of_lt _ _ _ (Nat.mod_lt _ (by decide))
  · intro h
    refine ⟨randomTexts.getD (r.textIdx % randomTexts.length) "",
      additionalWords.getD (r.wordIdx % additionalWords.length) "",
      getD_mem_of_lt _ _ _ (Nat.mod_lt _ (by decide)),
      getD_mem_of_lt _ _ _ (Nat.mod_lt _ (by decide)), ?_, Nat.le_add_left 1000 _, ?_⟩
    · simp [genText, h]
    · have hlt : r.numDraw % 9999 < 9999 := Nat.mod_lt _ (by decide)
      omega

theorem genText_structure_witness :
    ∃ base word, base ∈ randomTexts ∧ word ∈ additionalWords ∧
      genText ⟨0, true, 0, 9998⟩
        = base ++ " " ++ word ++ " " ++ toString (9998 % 9999 + 1000) ∧
      1000 ≤ 9998 % 9999 + 1000 ∧ 9998 % 9999 + 1000 ≤ 10998 :=
  (genText_structure ⟨0, true, 0, 9998⟩).2 rfl
